import Mathlib

/-!
Verification development for the EchoGraph backend memory service.

The definitions below are a shallow embedding of the relevant parts of the
source code: the WebSocket connection manager, the HTTP endpoint gating by
the tavern mode flag, the session bootstrap and reset logic of
api_server.py, the deletion and extraction pipeline of
src/core/game_engine.py, and the LLM client of src/core/llm_client.py.
Operations of the GRAGMemory knowledge graph module, whose code is not part
of the sources at hand, are modelled from the specification and are marked
as such in their doc comments.
-/

namespace EchoGraph

/-! ## Knowledge graph data model -/

/-- Data carried by one graph edge: source id, target id and the
relationship attribute. -/
structure Edge where
  src : String
  tgt : String
  rel : String
deriving DecidableEq, Repr

/-- Data carried by one graph node: its entity type, its attribute map
(an association list of string attributes), the soft-delete flag and the
optional deletion reason. -/
structure NodeData where
  ntype : String
  attrs : List (String × String)
  isDeleted : Bool
  deletionReason : Option String
deriving DecidableEq, Repr

/-- The knowledge graph: an association list of nodes keyed by node id,
plus a list of edges. -/
structure Graph where
  nodes : List (String × NodeData)
  edges : List Edge
deriving DecidableEq, Repr

/-- Look a node up by id. -/
def lookupNode (g : Graph) (id : String) : Option NodeData :=
  g.nodes.lookup id

/-- Override the attributes in `old` with the attributes in `upd`; keys not
mentioned in `upd` keep their old values. -/
def mergeAttrs (old upd : List (String × String)) : List (String × String) :=
  upd ++ old.filter (fun p => (upd.lookup p.1).isNone)

/-- Modelled from the spec: GRAGMemory.add_or_update_node upserts a node;
for an existing node the unspecified attributes are preserved, for a new
node the attributes are stored as given. -/
def add_or_update_node (g : Graph) (id : String) (ntype : String)
    (attrs : List (String × String)) : Graph :=
  match g.nodes.lookup id with
  | some old =>
      { g with nodes := g.nodes.map (fun p =>
          if p.1 = id then (p.1, { old with ntype := ntype, attrs := mergeAttrs old.attrs attrs })
          else p) }
  | none =>
      { g with nodes := (id, ⟨ntype, attrs, false, none⟩) :: g.nodes }

/-- Modelled from the spec: GRAGMemory.mark_node_as_deleted soft-deletes a
node: the node stays in the graph with is_deleted set and the reason
recorded. -/
def mark_node_as_deleted (g : Graph) (id : String) (reason : String) : Graph :=
  { g with nodes := g.nodes.map (fun p =>
      if p.1 = id then (p.1, { p.2 with isDeleted := true, deletionReason := some reason })
      else p) }

/-- Modelled from the spec: GRAGMemory.delete_node removes the node and all
its incident edges, returning whether the node existed. -/
def delete_node (g : Graph) (id : String) : Bool × Graph :=
  if (g.nodes.lookup id).isSome then
    (true,
      { nodes := g.nodes.filter (fun p => !(p.1 == id)),
        edges := g.edges.filter (fun e => !(e.src == id) && !(e.tgt == id)) })
  else
    (false, g)

/-- Does the edge `e` match the triple pattern, where the string star stands
for a wildcard in any of the three positions? -/
def tripleMatch (s t r : String) (e : Edge) : Bool :=
  (s == "*" || e.src == s) && (t == "*" || e.tgt == t) && (r == "*" || e.rel == r)

/-- Modelled from the spec: GRAGMemory.delete_edge deletes edges matching
the triple; the wildcard form accepts a star for any of the three fields and
matches all such edges. Returns whether anything was deleted. -/
def delete_edge (g : Graph) (s t r : String) : Bool × Graph :=
  let remaining := g.edges.filter (fun e => !(tripleMatch s t r e))
  (remaining.length != g.edges.length, { g with edges := remaining })

/-- Modelled from the spec: GRAGMemory.add_edge inserts an edge when both
endpoints are present, and otherwise leaves the graph unchanged. -/
def add_edge (g : Graph) (s t r : String) : Graph :=
  if (g.nodes.lookup s).isSome && (g.nodes.lookup t).isSome then
    { g with edges := g.edges ++ [⟨s, t, r⟩] }
  else g

/-- Modelled from the spec: GRAGMemory.clear_all empties nodes and edges. -/
def clear_all (_g : Graph) : Graph := ⟨[], []⟩

/-! ## WebSocket connection manager (api_server.py, ConnectionManager) -/

/-- Observable actions taken on sockets, in order: accepting a socket,
closing a socket with a close code, and storing a binding in the table. -/
inductive WSAction where
  | accept (ws : Nat)
  | close (ws : Nat) (code : Nat)
  | bind (sid : String) (ws : Nat)
deriving DecidableEq, Repr

/-- The binding table of the connection manager: session id to socket. -/
structure WSState where
  conns : List (String × Nat)
deriving DecidableEq, Repr

/-- ConnectionManager.connect: accept the socket; if a different socket is
bound to the same session id, close it with code 1012 before storing the
new binding. The returned list is the ordered trace of actions. -/
def ConnectionManager.connect (st : WSState) (sid : String) (ws : Nat) :
    WSState × List WSAction :=
  let closes : List WSAction :=
    match st.conns.lookup sid with
    | some old => if old ≠ ws then [.close old 1012] else []
    | none => []
  (⟨(sid, ws) :: st.conns.filter (fun p => !(p.1 == sid))⟩,
    [.accept ws] ++ closes ++ [.bind sid ws])

/-- ConnectionManager.disconnect: remove the binding for the session id
only when the stored entry is the given socket (a missing socket argument
removes it unconditionally). -/
def ConnectionManager.disconnect (st : WSState) (sid : String) (ws : Option Nat) :
    WSState :=
  match st.conns.lookup sid with
  | some cur =>
      match ws with
      | none => ⟨st.conns.filter (fun p => !(p.1 == sid))⟩
      | some w => if cur = w then ⟨st.conns.filter (fun p => !(p.1 == sid))⟩ else st
  | none => st

/-! ## Deletion event processing (game_engine.py, _process_deletion_events) -/

/-- One entry of nodes_to_delete in a validated delta. -/
structure NodeDeletion where
  nodeId : String
  deletionType : String
  reason : String
deriving DecidableEq, Repr

/-- One entry of edges_to_delete in a validated delta. -/
structure EdgeDeletion where
  source : String
  target : String
  relationship : String
deriving DecidableEq, Repr

/-- GameEngine._process_deletion_events, node part: a death deletion soft
deletes via mark_node_as_deleted, a lost deletion hard deletes via
delete_node (skipped and not counted when the node is absent), and every
other deletion type soft deletes. Returns the graph and the count. -/
def processNodeDeletion (g : Graph) (d : NodeDeletion) : Graph × Nat :=
  if d.deletionType = "death" then
    (mark_node_as_deleted g d.nodeId d.reason, 1)
  else if d.deletionType = "lost" then
    let (existed, g2) := delete_node g d.nodeId
    if existed then (g2, 1) else (g2, 0)
  else
    (mark_node_as_deleted g d.nodeId d.reason, 1)

/-- One round of the wildcard deletion loop: delete the edges matching the
collected triple precisely and bump the counter when something went. -/
def deleteEdgeStep (acc : Graph × Nat) (e : Edge) : Graph × Nat :=
  let r := delete_edge acc.1 e.src e.tgt e.rel
  (r.2, if r.1 then acc.2 + 1 else acc.2)

/-- GameEngine._process_deletion_events, edge part: when source or
relationship is the wildcard star, the matching edges are first collected
from the graph and then each is deleted precisely; otherwise the triple is
handed to delete_edge directly. Returns the graph and the deleted count. -/
def processEdgeDeletion (g : Graph) (d : EdgeDeletion) : Graph × Nat :=
  if d.source == "*" || d.relationship == "*" then
    let toRemove := g.edges.filter (tripleMatch d.source d.target d.relationship)
    toRemove.foldl deleteEdgeStep (g, 0)
  else
    let r := delete_edge g d.source d.target d.relationship
    if r.1 then (r.2, 1) else (r.2, 0)

/-! ## Entity id generation and bootstrap (game_engine.py) -/

/-- The name normalization inside GameEngine._generate_entity_id: strip the
name, lowercase it and replace spaces with underscores. -/
def normalizeName (s : String) : String :=
  String.mk ((s.trim.toLower).data.map (fun c => if c = ' ' then '_' else c))

/-- GameEngine._generate_entity_id: the canonical id is the entity type, an
underscore and the normalized name. -/
def generateEntityId (name entityType : String) : String :=
  entityType ++ "_" ++ normalizeName name

/-- The display name of a stored node: its name attribute when present,
its id otherwise. -/
def nodeName (id : String) (nd : NodeData) : String :=
  (nd.attrs.lookup "name").getD id

/-- Id canonicality for one stored node, as the spec states it: the id is
the type, an underscore and the normalized name. -/
def idCanonical (id : String) (nd : NodeData) : Prop :=
  id = generateEntityId (nodeName id nd) nd.ntype

/-- Id canonicality for a whole graph. -/
def graphCanonical (g : Graph) : Prop :=
  ∀ p ∈ g.nodes, idCanonical p.1 p.2

/-- One entity of a parsed character analysis payload. -/
structure EntitySpec where
  name : String
  etype : String
  description : String
deriving DecidableEq, Repr

/-- One relationship of a parsed character analysis payload. -/
structure RelSpec where
  source : String
  target : String
  relationship : String
deriving DecidableEq, Repr

/-- The parsed LLM character analysis payload. -/
structure ParsedData where
  mainCharacter : Option EntitySpec
  entities : List EntitySpec
  relationships : List RelSpec
deriving DecidableEq, Repr

/-- GameEngine._apply_llm_analysis_results, main character part: insert the
main character node under its generated id with the name attribute set. -/
def applyMainCharacter (g : Graph) (pd : ParsedData) (charName : String) : Graph :=
  match pd.mainCharacter with
  | some mc =>
      let nm := if mc.name = "" then charName else mc.name
      add_or_update_node g (generateEntityId nm "character") "character"
        [("name", nm), ("source", "llm_character_card"), ("is_main_character", "true")]
  | none => g

/-- GameEngine._apply_llm_analysis_results, entity part: insert each named
entity under its generated id with name, description and source set;
entities without a name are skipped. -/
def applyEntities (g : Graph) (entities : List EntitySpec) : Graph :=
  entities.foldl (fun acc e =>
    if e.name = "" then acc
    else add_or_update_node acc (generateEntityId e.name e.etype) e.etype
      [("name", e.name), ("description", e.description), ("source", "llm_analysis")]) g

/-- The name-to-id mapping built by _apply_llm_analysis_results before the
relationship loop. -/
def entityNameToId (pd : ParsedData) (charName : String) : List (String × String) :=
  let base := match pd.mainCharacter with
    | some mc =>
        let nm := if mc.name = "" then charName else mc.name
        [(nm, generateEntityId nm "character")]
    | none => []
  base ++ (pd.entities.filter (fun e => !(e.name == ""))).map
    (fun e => (e.name, generateEntityId e.name e.etype))

/-- GameEngine._apply_llm_analysis_results, relationship part: resolve both
endpoint names through the mapping and add the edge when both resolved ids
denote present nodes. -/
def applyRelationships (g : Graph) (pd : ParsedData) (charName : String) : Graph :=
  pd.relationships.foldl (fun acc r =>
    if r.source = "" ∨ r.target = "" then acc
    else
      match (entityNameToId pd charName).lookup r.source,
            (entityNameToId pd charName).lookup r.target with
      | some sid, some tid =>
          if (lookupNode acc sid).isSome ∧ (lookupNode acc tid).isSome then
            add_edge acc sid tid (if r.relationship = "" then "related" else r.relationship)
          else acc
      | _, _ => acc) g

/-- GameEngine._apply_llm_analysis_results: main character, then entities,
then relationships. -/
def applyLLMAnalysisResults (g : Graph) (pd : ParsedData) (charName : String) : Graph :=
  applyRelationships (applyEntities (applyMainCharacter g pd charName) pd.entities) pd charName

/-- GameEngine._fallback_simple_initialization: insert only the main
character node under its generated id. -/
def fallbackSimpleInit (g : Graph) (charName charDescription : String) : Graph :=
  add_or_update_node g (generateEntityId charName "character") "character"
    [("name", charName),
     ("description", if charDescription = "" then "主要角色" else charDescription.take 200),
     ("is_main_character", "true"), ("source", "simple_fallback")]

/-- One entry of nodes_to_update in a validated delta: the node id, the
optional type field and the attribute map. -/
structure NodeUpdate where
  nodeId : String
  utype : Option String
  attributes : List (String × String)
deriving DecidableEq, Repr

/-- The type inference of _apply_validated_updates for a node that does
not exist yet: the type field of the entry, defaulting to unknown, with a
present location attribute promoting unknown to character. -/
def inferNodeType (u : NodeUpdate) : String :=
  let t := u.utype.getD "unknown"
  if t = "unknown" ∧ (u.attributes.lookup "location").isSome then "character" else t

/-- GameEngine._apply_validated_updates, node update loop body (lines
510-532): a missing node is inserted under the raw node id of the entry
with the inferred type and the entry attributes; an existing node keeps
its stored type and has the entry attributes merged in. -/
def applyNodeUpdate (g : Graph) (u : NodeUpdate) : Graph :=
  match lookupNode g u.nodeId with
  | none => add_or_update_node g u.nodeId (inferNodeType u) u.attributes
  | some existing => add_or_update_node g u.nodeId existing.ntype u.attributes

/-- GameEngine._apply_validated_updates, node update loop over the whole
delta. -/
def applyNodeUpdates (g : Graph) (us : List NodeUpdate) : Graph :=
  us.foldl applyNodeUpdate g

/-! ## Session reinitialization endpoint (api_server.py, lines 1017-1163) -/

/-- The reinitialize endpoint after the character name has been resolved:
clear the graph, then, for a usable character name, insert a node keyed by
the raw character name, a node keyed by the literal dialogue-world name and
one edge between them. -/
def reinitSessionGraph (g : Graph) (characterName : String) : Graph × Nat × Nat :=
  let g0 := clear_all g
  if characterName ≠ "" ∧ characterName ≠ "Unknown Character" then
    let g1 := add_or_update_node g0 characterName "character"
      [("description", "SillyTavern中的角色 " ++ characterName),
       ("role", "主角"), ("source", "SillyTavern")]
    let g2 := add_or_update_node g1 "对话世界" "location"
      [("description", characterName ++ "所在的对话环境"), ("type", "虚拟空间")]
    let g3 := add_edge g2 characterName "对话世界" "位于"
    (g3, 2, 1)
  else
    (g0, 0, 0)

/-! ## Per-turn extraction with fallback (game_engine.py, lines 434-491) -/

/-- The delta counters returned by the extraction pipeline. -/
structure Counters where
  nodesUpdated : Nat
  edgesAdded : Nat
  nodesDeleted : Nat
  edgesDeleted : Nat
deriving DecidableEq, Repr

/-- Outcomes of the collaborator calls made during one extraction turn.
Each Except value records whether the call raised; the analyze outcome also
records whether the returned analysis carries an error key. -/
structure ExtractEnv where
  agentConfigured : Bool
  analyzeOutcome : Except String (Bool × String)
  agentPipeline : String → Except String Counters
  localPipeline : Except String Counters

/-- GameEngine._extract_with_local_processor: run the rule extractor,
validation and application; on any raise return the all-zero counters. -/
def extractWithLocalProcessor (env : ExtractEnv) : Counters :=
  match env.localPipeline with
  | .ok c => c
  | .error _ => ⟨0, 0, 0, 0⟩

/-- GameEngine._extract_with_agent: run the agent analysis; on a raise, an
error key in the analysis, or a raise in the convert, validate or apply
steps, fall back to the local processor. -/
def extractWithAgent (env : ExtractEnv) : Counters :=
  match env.analyzeOutcome with
  | .error _ => extractWithLocalProcessor env
  | .ok (hasErrorKey, payload) =>
      if hasErrorKey then extractWithLocalProcessor env
      else
        match env.agentPipeline payload with
        | .ok c => c
        | .error _ => extractWithLocalProcessor env

/-- GameEngine.extract_updates_from_response: use the agent when one is
configured, the local processor otherwise. -/
def extract_updates_from_response (env : ExtractEnv) : Counters :=
  if env.agentConfigured then extractWithAgent env else extractWithLocalProcessor env

/-- The ways in which the LLM update agent can be unavailable or can fail
for one turn. -/
def agentUnavailableOrFailed (env : ExtractEnv) : Prop :=
  env.agentConfigured = false ∨
  (∃ m, env.analyzeOutcome = .error m) ∨
  (∃ p, env.analyzeOutcome = .ok (true, p)) ∨
  (∃ p m, env.analyzeOutcome = .ok (false, p) ∧ env.agentPipeline p = .error m)

/-! ## LLM client (llm_client.py, LLMClient.chat) -/

/-- The fixed text LLMClient.chat returns when the completion call raises. -/
def chatFallbackText : String := "抱歉，系统暂时无法响应。"

/-- LLMClient.chat: issue one chat completion request, passing the
configured request timeout to the transport; return the content on success
and the fixed fallback text when the call raises for any reason. The
transport is a function from the timeout handed to it to its outcome, and
it is consulted exactly once. -/
def LLMClient.chat (requestTimeout : Nat)
    (transport : Nat → Except String String) : String :=
  match transport requestTimeout with
  | .ok content => content
  | .error _ => chatFallbackText

/-! ## HTTP endpoint gating by the tavern mode flag (api_server.py) -/

/-- The HTTP endpoints registered by api_server.py. -/
inductive Endpoint where
  | initSession
  | initAsync
  | initStatus
  | enhancePrompt
  | updateMemory
  | processConversation
  | syncConversation
  | sessionsClear
  | sessionsStats
  | sessionsReset
  | sessionsReinit
  | sessionsList
  | sessionsExport
  | tavernSubmitCharacter
  | tavernGetCharacter
  | tavernAvailableCharacters
  | tavernNewSession
  | tavernProcessMessage
  | tavernCurrentSession
  | tavernCharacters
  | tavernSessions
  | tavernRequestReinit
  | tavernReinitFromPlugin
  | tavernDeleteCharacter
  | health
  | systemLiveness
  | systemTavernModeGet
  | systemTavernModeSet
  | systemFullReset
  | systemQuickReset
  | uiTestClearData
deriving DecidableEq, Repr

/-- Which handlers begin with the guard that raises Forbidden 403 when
TAVERN_MODE_ACTIVE is false. Read off the source of each handler. -/
def rejectsWhenGateOff : Endpoint → Bool
  | .tavernSubmitCharacter => true
  | .tavernAvailableCharacters => true
  | .tavernProcessMessage => true
  | .tavernCurrentSession => true
  | .health => true
  | _ => false

/-- Which endpoints the claim calls plugin-facing: those operating on
tavern sessions or character data. This definition follows the words of
the specification, not the source, and is the comparison point for the
gate claim. -/
def pluginFacingSpec : Endpoint → Bool
  | .tavernSubmitCharacter => true
  | .tavernGetCharacter => true
  | .tavernAvailableCharacters => true
  | .tavernNewSession => true
  | .tavernProcessMessage => true
  | .tavernCurrentSession => true
  | .tavernCharacters => true
  | .tavernSessions => true
  | .tavernRequestReinit => true
  | .tavernReinitFromPlugin => true
  | .tavernDeleteCharacter => true
  | _ => false

/-- The websocket endpoint for /ws/tavern: when the tavern mode flag is
off, the socket is accepted and immediately closed with policy code 1008;
otherwise the connection manager takes over. -/
def websocketGate (tavernModeActive : Bool) (st : WSState) (sid : String) (ws : Nat) :
    WSState × List WSAction :=
  if !tavernModeActive then
    (st, [.accept ws, .close ws 1008])
  else
    ConnectionManager.connect st sid ws

/-! ## Session initialization endpoint (api_server.py, initialize_session) -/

/-- Per-session engine state visible to the initialization endpoint. -/
structure Engine where
  graph : Graph
  convLog : List (String × String)
deriving DecidableEq, Repr

/-- Process-wide state touched by the initialization endpoint: the session
map and the tavern character registry. -/
structure InitState where
  sessions : List (String × Engine)
  registry : List (String × String)
deriving DecidableEq, Repr

/-- The outcome reported by the initialization endpoint: which branch ran
and the node and edge counts it reported. -/
inductive InitOutcome where
  | existingSession (nodes edges : Nat)
  | existingGraph (nodes edges : Nat)
  | bootstrapped (nodes edges : Nat)
deriving DecidableEq, Repr

/-- The initialization request fields the branching depends on. -/
structure InitReq where
  sessionId : String
  cardKey : String
  isTest : Bool
deriving DecidableEq, Repr

/-- The initialization endpoint: an already present session is answered
with its current counts and nothing is touched; otherwise the tavern
character is registered first (outside test mode), the engine is created
from the on-disk graph, a non-empty graph short-circuits with its counts,
and only an empty graph is bootstrapped. The bootstrap step is abstracted
as a function from the loaded graph to the bootstrapped engine state and
the counts it reports. -/
def initSessionEndpoint (st : InitState) (diskGraph : Graph)
    (bootstrap : Graph → Graph × Nat × Nat) (req : InitReq) :
    InitState × InitOutcome :=
  match st.sessions.lookup req.sessionId with
  | some engine =>
      (st, .existingSession engine.graph.nodes.length engine.graph.edges.length)
  | none =>
      let registry2 :=
        if !req.isTest then (req.cardKey, req.sessionId) :: st.registry else st.registry
      let engine : Engine := ⟨diskGraph, []⟩
      let sessions2 := (req.sessionId, engine) :: st.sessions
      if diskGraph.nodes.length > 0 then
        (⟨sessions2, registry2⟩,
          .existingGraph diskGraph.nodes.length diskGraph.edges.length)
      else
        let (g2, n, e) := bootstrap diskGraph
        (⟨(req.sessionId, ⟨g2, []⟩) :: st.sessions, registry2⟩, .bootstrapped n e)

/-! ## System resets (api_server.py, full_system_reset and quick_reset) -/

/-- The process-wide maps and the storage manager generation. Re-creating
the storage manager bumps the generation counter. -/
structure SysState where
  sessionIds : List String
  slidingWindows : List String
  conflictResolvers : List String
  initTasks : List String
  pluginCharData : List String
  wsConns : List (String × Nat)
  storageGen : Nat
deriving DecidableEq, Repr

/-- full_system_reset: clear the session map, the sliding window managers,
the conflict resolvers, the initialization task table and the plugin
character data, close every bound socket with the normal code and drop the
binding table, then re-create the storage manager. Returns the close
events. -/
def full_system_reset (s : SysState) : SysState × List (Nat × Nat) :=
  (⟨[], [], [], [], [], [], s.storageGen + 1⟩,
    s.wsConns.map (fun c => (c.2, 1000)))

/-- quick_reset: clear the session map, the sliding window managers, the
conflict resolvers and the plugin character data, close every bound socket
with the normal code and drop the binding table; the initialization task
table and the storage manager are left alone. Returns the close events. -/
def quick_reset (s : SysState) : SysState × List (Nat × Nat) :=
  ({ s with sessionIds := [], slidingWindows := [], conflictResolvers := [],
            pluginCharData := [], wsConns := [] },
    s.wsConns.map (fun c => (c.2, 1000)))

/-! ## Windowed conversation endpoint (api_server.py, process_conversation) -/

/-- Process-wide state the conversation endpoint consults: the session ids
and the session ids that already own a sliding window manager. -/
structure ConvState where
  sessionIds : List String
  managerIds : List String
deriving DecidableEq, Repr

/-- The result the sliding window manager returns for one new turn. -/
structure WindowResult where
  newTurnSequence : Nat
  targetProcessed : Bool
  currentTurns : Nat
  nodesUpdated : Nat
  edgesAdded : Nat
deriving DecidableEq, Repr

/-- The response fields of the conversation endpoint. -/
structure ConvResp where
  turnSequence : Nat
  turnProcessed : Bool
  targetProcessed : Bool
  windowSize : Nat
  nodesUpdated : Nat
  edgesAdded : Nat
deriving DecidableEq, Repr

/-- How one call to the conversation endpoint ends. -/
inductive ConvOutcome where
  | notFound
  | fallback (r : ConvResp)
  | windowed (st : ConvState) (r : ConvResp)
deriving DecidableEq, Repr

/-- get_or_create_sliding_window_manager: an existing manager is returned;
otherwise one is created for the session engine, and the only failure is a
ValueError when the engine is missing from the session map. -/
def getOrCreateSWM (st : ConvState) (sid : String) : Option ConvState :=
  if sid ∈ st.managerIds then some st
  else if sid ∈ st.sessionIds then some { st with managerIds := sid :: st.managerIds }
  else none

/-- The conversation endpoint: unknown sessions get 404; then the sliding
window manager is acquired, and only a ValueError from that acquisition
takes the fallback path, which extracts and applies immediately and
answers with the constants 1, true, true, 1; otherwise the windowed path
reports the manager result. The immediate extraction counters and the
window result are abstracted as inputs. -/
def process_conversation (st : ConvState) (sid : String)
    (fallbackCounters : Nat × Nat) (wr : WindowResult) : ConvOutcome :=
  if sid ∉ st.sessionIds then .notFound
  else
    match getOrCreateSWM st sid with
    | none =>
        .fallback ⟨1, true, true, 1, fallbackCounters.1, fallbackCounters.2⟩
    | some st2 =>
        .windowed st2 ⟨wr.newTurnSequence, true, wr.targetProcessed,
          wr.currentTurns, wr.nodesUpdated, wr.edgesAdded⟩

/-! ## Helper lemmas -/

/-- Lookup fails on a list from which every pair with the given key was
filtered out. -/
theorem lookup_filter_self {β : Type} (l : List (String × β)) (sid : String) :
    (l.filter (fun p => !(p.1 == sid))).lookup sid = none := by
  induction l with
  | nil => rfl
  | cons a l ih =>
      by_cases h : a.1 = sid
      · simp [List.filter, h, ih]
      · have hb : (a.1 == sid) = false := by simp [h]
        have hb2 : (sid == a.1) = false := by
          simp [BEq.beq]
          exact fun he => h he.symm
        simp [List.filter, hb, List.lookup, hb2, ih]

/-- Lookup after the pointwise soft-delete map equals the mapped lookup. -/
theorem lookup_mark (l : List (String × NodeData)) (id r : String) :
    ((l.map (fun p =>
        if p.1 = id then (p.1, { p.2 with isDeleted := true, deletionReason := some r })
        else p)).lookup id) =
      (l.lookup id).map (fun nd => { nd with isDeleted := true, deletionReason := some r }) := by
  induction l with
  | nil => rfl
  | cons a l ih =>
      obtain ⟨k, v⟩ := a
      by_cases h : k = id
      · subst h
        rw [List.map_cons]
        rw [if_pos (show (k, v).1 = k from rfl)]
        simp [List.lookup, ih]
      · have hb2 : (id == k) = false := by
          simp [BEq.beq]
          exact fun he => h he.symm
        rw [List.map_cons]
        rw [if_neg (show ¬ (k, v).1 = id from h)]
        simp [List.lookup, hb2, ih]

/-! ## Claim C2: socket replacement and guarded disconnect -/

/-- Claim C2: when a new socket connects while another socket is bound to
the same session id, the old socket is closed with code 1012 before the
new binding is stored; disconnect of a socket removes the binding only
when the stored entry is that socket, so a late close of a superseded
socket never removes the newer binding. -/
theorem claimC2 (st : WSState) (sid : String) (oldWs newWs : Nat)
    (hbound : st.conns.lookup sid = some oldWs) (hne : oldWs ≠ newWs) :
    (ConnectionManager.connect st sid newWs).2 =
      [WSAction.accept newWs, WSAction.close oldWs 1012, WSAction.bind sid newWs] ∧
    ((ConnectionManager.connect st sid newWs).1).conns.lookup sid = some newWs ∧
    ConnectionManager.disconnect (ConnectionManager.connect st sid newWs).1 sid (some oldWs)
      = (ConnectionManager.connect st sid newWs).1 ∧
    (ConnectionManager.disconnect st sid (some oldWs)).conns.lookup sid = none := by
  refine ⟨?_, ?_, ?_, ?_⟩
  · simp [ConnectionManager.connect, hbound, hne]
  · simp [ConnectionManager.connect, List.lookup]
  · have hne2 : newWs ≠ oldWs := fun h => hne h.symm
    simp [ConnectionManager.connect, ConnectionManager.disconnect, List.lookup, hne2]
  · simp [ConnectionManager.disconnect, hbound, lookup_filter_self]

/-- Witness for claim C2 at a concrete binding table. -/
theorem claimC2_witness :
    (⟨[("s1", 3)]⟩ : WSState).conns.lookup "s1" = some 3 ∧
    ((ConnectionManager.connect ⟨[("s1", 3)]⟩ "s1" 7).2 =
      [WSAction.accept 7, WSAction.close 3 1012, WSAction.bind "s1" 7] ∧
    ((ConnectionManager.connect ⟨[("s1", 3)]⟩ "s1" 7).1).conns.lookup "s1" = some 7 ∧
    ConnectionManager.disconnect (ConnectionManager.connect ⟨[("s1", 3)]⟩ "s1" 7).1 "s1" (some 3)
      = (ConnectionManager.connect ⟨[("s1", 3)]⟩ "s1" 7).1 ∧
    (ConnectionManager.disconnect ⟨[("s1", 3)]⟩ "s1" (some 3)).conns.lookup "s1" = none) :=
  ⟨by decide, claimC2 ⟨[("s1", 3)]⟩ "s1" 3 7 (by decide) (by decide)⟩

/-! ## Claim C9: quick reset versus full reset -/

/-- Counterexample to claim C9: on a state holding one initialization
task, quick_reset keeps the task table while full_reset clears it, so
quick_reset is not full_reset minus only the storage reinitialization. -/
theorem claimC9_counterexample :
    ¬ (quick_reset ⟨["s1"], [], [], ["task1"], [], [], 0⟩ =
        (let fs := (full_system_reset ⟨["s1"], [], [], ["task1"], [], [], 0⟩).1
         ({ fs with storageGen := (0 : Nat) },
          (full_system_reset ⟨["s1"], [], [], ["task1"], [], [], 0⟩).2))) := by
  decide

/-- Claim C9 as amended: quick_reset equals full_reset except that it
keeps the storage manager generation and the initialization task table;
both close every bound socket and clear the same remaining maps. -/
theorem claimC9 (s : SysState) :
    quick_reset s =
      (let fs := (full_system_reset s).1
       ({ fs with storageGen := s.storageGen, initTasks := s.initTasks },
        (full_system_reset s).2)) := by
  cases s
  rfl

/-! ## Claim C10: fallback path of the conversation endpoint -/

/-- Counterexample to claim C10: for a session that exists but never had
its sliding window configured, the endpoint creates a manager on demand
and takes the windowed path with the manager result, not the fallback
path with the constant response. -/
theorem claimC10_counterexample :
    process_conversation ⟨["s1"], []⟩ "s1" (0, 0) ⟨5, false, 3, 0, 0⟩ =
      ConvOutcome.windowed ⟨["s1"], ["s1"]⟩ ⟨5, true, false, 3, 0, 0⟩ ∧
    process_conversation ⟨["s1"], []⟩ "s1" (0, 0) ⟨5, false, 3, 0, 0⟩ ≠
      ConvOutcome.fallback ⟨1, true, true, 1, 0, 0⟩ := by
  decide

/-- Claim C10 as amended: for a session present in the session map whose
sliding window was never configured, the endpoint creates a manager on
demand and answers through the windowed path with the manager result; the
fallback branch, which would answer with the constants 1, true, true, 1,
is unreachable for any session that passes the existence check. -/
theorem claimC10 (st : ConvState) (sid : String) (fb : Nat × Nat) (wr : WindowResult)
    (hsess : sid ∈ st.sessionIds) (hmgr : sid ∉ st.managerIds) :
    process_conversation st sid fb wr =
      ConvOutcome.windowed { st with managerIds := sid :: st.managerIds }
        ⟨wr.newTurnSequence, true, wr.targetProcessed, wr.currentTurns,
         wr.nodesUpdated, wr.edgesAdded⟩ ∧
    (∀ (st2 : ConvState) (sid2 : String) (fb2 : Nat × Nat) (wr2 : WindowResult)
        (r : ConvResp), sid2 ∈ st2.sessionIds →
        process_conversation st2 sid2 fb2 wr2 ≠ ConvOutcome.fallback r) := by
  constructor
  · simp [process_conversation, getOrCreateSWM, hsess, hmgr]
  · intro st2 sid2 fb2 wr2 r hsess2
    by_cases hm : sid2 ∈ st2.managerIds <;>
      simp [process_conversation, getOrCreateSWM, hsess2, hm]

/-- Witness for claim C10 at a concrete state. -/
theorem claimC10_witness :
    "s1" ∈ (⟨["s1"], []⟩ : ConvState).sessionIds ∧
    process_conversation ⟨["s1"], []⟩ "s1" (2, 4) ⟨6, true, 4, 2, 4⟩ =
      ConvOutcome.windowed ⟨["s1"], ["s1"]⟩ ⟨6, true, true, 4, 2, 4⟩ :=
  ⟨by decide,
    (claimC10 ⟨["s1"], []⟩ "s1" (2, 4) ⟨6, true, 4, 2, 4⟩ (by decide) (by decide)).1⟩

/-! ## Claim C7: LLM client error handling -/

/-- Counterexample to claim C7: a failing completion call is converted
into an ordinary text result, the fixed fallback string, and is therefore
indistinguishable from a successful call returning that same text; no
classified failure is propagated. -/
theorem claimC7_counterexample :
    LLMClient.chat 30 (fun _ => Except.error "Request timed out") = chatFallbackText ∧
    LLMClient.chat 30 (fun _ => Except.error "Request timed out") =
      LLMClient.chat 30 (fun _ => Except.ok chatFallbackText) :=
  ⟨rfl, rfl⟩

/-- Claim C7 as amended: chat passes the configured request timeout to the
single transport call and never retries (its result depends only on the
one outcome of that call at that timeout); on success it returns the
content, and on any failure it swallows the error and returns the fixed
fallback text instead of propagating a classified failure. -/
theorem claimC7 (t : Nat) (transport : Nat → Except String String) :
    ((∃ c, transport t = .ok c ∧ LLMClient.chat t transport = c) ∨
      (∃ m, transport t = .error m ∧ LLMClient.chat t transport = chatFallbackText)) ∧
    (∀ transport2 : Nat → Except String String, transport2 t = transport t →
      LLMClient.chat t transport2 = LLMClient.chat t transport) := by
  constructor
  · cases h : transport t with
    | ok c => exact Or.inl ⟨c, rfl, by simp [LLMClient.chat, h]⟩
    | error m => exact Or.inr ⟨m, rfl, by simp [LLMClient.chat, h]⟩
  · intro transport2 h2
    simp [LLMClient.chat, h2]

/-- Witness for claim C7 at a concrete transport. -/
theorem claimC7_witness :
    ((∃ c, Except.error (α := String) "boom" = Except.ok c ∧
        LLMClient.chat 30 (fun _ => Except.error "boom") = c) ∨
      (∃ m, Except.error (α := String) (ε := String) "boom" = Except.error m ∧
        LLMClient.chat 30 (fun _ => Except.error "boom") = chatFallbackText)) ∧
    LLMClient.chat 30 (fun n => if n = 30 then Except.error "boom" else Except.ok "x") =
      LLMClient.chat 30 (fun _ => Except.error "boom") :=
  ⟨(claimC7 30 (fun _ => Except.error "boom")).1,
    (claimC7 30 (fun _ => Except.error "boom")).2
      (fun n => if n = 30 then Except.error "boom" else Except.ok "x") (by simp)⟩

/-! ## Claim C5: extraction fallback never surfaces LLM failures -/

/-- Claim C5: whenever the update agent is disabled or fails for one turn,
extract_updates_from_response equals the local-processor result, and that
result is always a plain counters value: the applied local counters on
success, the all-zero counters when even the local path raises. -/
theorem claimC5 (env : ExtractEnv) (h : agentUnavailableOrFailed env) :
    extract_updates_from_response env = extractWithLocalProcessor env ∧
    ((∃ c, env.localPipeline = .ok c ∧ extractWithLocalProcessor env = c) ∨
      extractWithLocalProcessor env = ⟨0, 0, 0, 0⟩) := by
  constructor
  · by_cases hc : env.agentConfigured
    · rcases h with h | ⟨m, hm⟩ | ⟨p, hp⟩ | ⟨p, m, hp, hpipe⟩
      · simp [extract_updates_from_response, h] at hc ⊢
      · simp [extract_updates_from_response, hc, extractWithAgent, hm]
      · simp [extract_updates_from_response, hc, extractWithAgent, hp]
      · simp [extract_updates_from_response, hc, extractWithAgent, hp, hpipe]
    · simp [extract_updates_from_response, hc]
  · cases hl : env.localPipeline with
    | ok c => exact Or.inl ⟨c, rfl, by simp [extractWithLocalProcessor, hl]⟩
    | error m => exact Or.inr (by simp [extractWithLocalProcessor, hl])

/-- Witness for claim C5: a turn whose agent analysis raises while the
local extractor succeeds. -/
theorem claimC5_witness :
    agentUnavailableOrFailed
      ⟨true, .error "LLM call raised", fun _ => .error "unused", .ok ⟨1, 2, 0, 0⟩⟩ ∧
    (extract_updates_from_response
        ⟨true, .error "LLM call raised", fun _ => .error "unused", .ok ⟨1, 2, 0, 0⟩⟩ =
      extractWithLocalProcessor
        ⟨true, .error "LLM call raised", fun _ => .error "unused", .ok ⟨1, 2, 0, 0⟩⟩ ∧
    ((∃ c, (Except.ok (ε := String) (⟨1, 2, 0, 0⟩ : Counters)) = .ok c ∧
        extractWithLocalProcessor
          ⟨true, .error "LLM call raised", fun _ => .error "unused", .ok ⟨1, 2, 0, 0⟩⟩ = c) ∨
      extractWithLocalProcessor
        ⟨true, .error "LLM call raised", fun _ => .error "unused", .ok ⟨1, 2, 0, 0⟩⟩ =
          ⟨0, 0, 0, 0⟩)) :=
  ⟨Or.inr (Or.inl ⟨"LLM call raised", rfl⟩),
    claimC5 _ (Or.inr (Or.inl ⟨"LLM call raised", rfl⟩))⟩

/-! ## Claim C1: tavern mode gate -/

/-- Counterexample to claim C1: the characters listing endpoint operates
on character data, so the claim calls it plugin-facing, yet its handler
carries no tavern mode guard and stays available when the flag is off. -/
theorem claimC1_counterexample :
    pluginFacingSpec Endpoint.tavernCharacters = true ∧
    rejectsWhenGateOff Endpoint.tavernCharacters = false :=
  ⟨rfl, rfl⟩

/-- Claim C1 as amended: with the tavern mode flag off, every websocket
connection is accepted and immediately closed with policy code 1008 and
the liveness endpoint stays ungated, but only five plugin-facing handlers
carry the Forbidden guard (submit character, available characters, process
message, current session, health); the remaining tavern endpoints, among
them the characters listing, character fetch, new session, session
listing, both reinitialization routes and character deletion, stay
ungated. -/
theorem claimC1 :
    (∀ (st : WSState) (sid : String) (ws : Nat),
      websocketGate false st sid ws = (st, [WSAction.accept ws, WSAction.close ws 1008])) ∧
    rejectsWhenGateOff Endpoint.systemLiveness = false ∧
    rejectsWhenGateOff Endpoint.tavernSubmitCharacter = true ∧
    rejectsWhenGateOff Endpoint.tavernAvailableCharacters = true ∧
    rejectsWhenGateOff Endpoint.tavernProcessMessage = true ∧
    rejectsWhenGateOff Endpoint.tavernCurrentSession = true ∧
    rejectsWhenGateOff Endpoint.health = true ∧
    rejectsWhenGateOff Endpoint.tavernGetCharacter = false ∧
    rejectsWhenGateOff Endpoint.tavernNewSession = false ∧
    rejectsWhenGateOff Endpoint.tavernCharacters = false ∧
    rejectsWhenGateOff Endpoint.tavernSessions = false ∧
    rejectsWhenGateOff Endpoint.tavernRequestReinit = false ∧
    rejectsWhenGateOff Endpoint.tavernReinitFromPlugin = false ∧
    rejectsWhenGateOff Endpoint.tavernDeleteCharacter = false ∧
    (∀ e, rejectsWhenGateOff e = true →
      pluginFacingSpec e = true ∨ e = Endpoint.health) := by
  refine ⟨fun st sid ws => rfl, rfl, rfl, rfl, rfl, rfl, rfl, rfl, rfl, rfl, rfl,
    rfl, rfl, rfl, ?_⟩
  intro e he
  cases e <;> simp_all [rejectsWhenGateOff, pluginFacingSpec]

/-- Witness for claim C1 at a concrete socket and endpoint. -/
theorem claimC1_witness :
    websocketGate false ⟨[]⟩ "s1" 7 =
      (⟨[]⟩, [WSAction.accept 7, WSAction.close 7 1008]) ∧
    (pluginFacingSpec Endpoint.tavernSubmitCharacter = true ∨
      Endpoint.tavernSubmitCharacter = Endpoint.health) :=
  ⟨claimC1.1 ⟨[]⟩ "s1" 7,
    claimC1.2.2.2.2.2.2.2.2.2.2.2.2.2.2 Endpoint.tavernSubmitCharacter rfl⟩

/-! ## Claim C3: idempotent initialization on a populated session -/

/-- Counterexample to claim C3: initializing a session whose on-disk graph
is already populated but whose engine is not yet in the session map skips
the bootstrap, yet still registers the tavern character, mutating the
character registry which the claim says stays unchanged. -/
theorem claimC3_counterexample :
    (initSessionEndpoint ⟨[], []⟩
        ⟨[("character_alice", ⟨"character", [("name", "Alice")], false, none⟩)], []⟩
        (fun g => (g, 0, 0)) ⟨"s1", "Alice", false⟩).2 =
      InitOutcome.existingGraph 1 0 ∧
    (initSessionEndpoint ⟨[], []⟩
        ⟨[("character_alice", ⟨"character", [("name", "Alice")], false, none⟩)], []⟩
        (fun g => (g, 0, 0)) ⟨"s1", "Alice", false⟩).1.registry = [("Alice", "s1")] := by
  decide

/-- Claim C3 as amended: for a session already in the session map the
endpoint answers with the current counts and changes nothing; for a
session absent from the map whose loaded graph is non-empty the endpoint
answers with the loaded counts, never runs the bootstrap (the answer is
the same for every bootstrap function), and stores the loaded graph with
an empty conversation log — but it first registers the tavern character
when the request is not a test, extending the character registry. -/
theorem claimC3 (st : InitState) (diskGraph : Graph)
    (b1 b2 : Graph → Graph × Nat × Nat) (req : InitReq) :
    (∀ eng, st.sessions.lookup req.sessionId = some eng →
      initSessionEndpoint st diskGraph b1 req =
        (st, .existingSession eng.graph.nodes.length eng.graph.edges.length)) ∧
    (st.sessions.lookup req.sessionId = none → diskGraph.nodes.length > 0 →
      initSessionEndpoint st diskGraph b1 req =
        (⟨(req.sessionId, ⟨diskGraph, []⟩) :: st.sessions,
          if !req.isTest then (req.cardKey, req.sessionId) :: st.registry else st.registry⟩,
         .existingGraph diskGraph.nodes.length diskGraph.edges.length) ∧
      initSessionEndpoint st diskGraph b1 req = initSessionEndpoint st diskGraph b2 req) := by
  constructor
  · intro eng heng
    simp [initSessionEndpoint, heng]
  · intro hnone hpos
    have hlen : (diskGraph.nodes.length > 0) = True := by simp [hpos]
    constructor
    · simp [initSessionEndpoint, hnone, hpos]
    · simp [initSessionEndpoint, hnone, hpos]

/-- Witness for claim C3: a fresh process state with a populated on-disk
graph; the two bootstrap functions differ yet the endpoint result agrees. -/
theorem claimC3_witness :
    ((⟨[], []⟩ : InitState).sessions.lookup "s1" = none ∧
      (⟨[("character_alice", ⟨"character", [("name", "Alice")], false, none⟩)],
        []⟩ : Graph).nodes.length > 0) ∧
    (initSessionEndpoint ⟨[], []⟩
        ⟨[("character_alice", ⟨"character", [("name", "Alice")], false, none⟩)], []⟩
        (fun g => (g, 0, 0)) ⟨"s1", "Alice", true⟩ =
      (⟨[("s1", ⟨⟨[("character_alice", ⟨"character", [("name", "Alice")], false, none⟩)],
          []⟩, []⟩)], []⟩,
       InitOutcome.existingGraph 1 0) ∧
      initSessionEndpoint ⟨[], []⟩
        ⟨[("character_alice", ⟨"character", [("name", "Alice")], false, none⟩)], []⟩
        (fun g => (g, 0, 0)) ⟨"s1", "Alice", true⟩ =
      initSessionEndpoint ⟨[], []⟩
        ⟨[("character_alice", ⟨"character", [("name", "Alice")], false, none⟩)], []⟩
        (fun _ => (⟨[], []⟩, 9, 9)) ⟨"s1", "Alice", true⟩) :=
  ⟨⟨by decide, by decide⟩,
    (claimC3 ⟨[], []⟩
      ⟨[("character_alice", ⟨"character", [("name", "Alice")], false, none⟩)], []⟩
      (fun g => (g, 0, 0)) (fun _ => (⟨[], []⟩, 9, 9)) ⟨"s1", "Alice", true⟩).2
      (by decide) (by decide)⟩

/-! ## Claim C4: node deletion semantics -/

/-- Claim C4: for a node present in the graph, a death deletion soft
deletes (the node stays with is_deleted true), a lost deletion hard
deletes (the node is absent and every incident edge is gone), and a
default deletion soft deletes. -/
theorem claimC4 (g : Graph) (id reason : String) (h : (lookupNode g id).isSome) :
    (∃ nd, lookupNode (processNodeDeletion g ⟨id, "death", reason⟩).1 id = some nd ∧
      nd.isDeleted = true) ∧
    (lookupNode (processNodeDeletion g ⟨id, "lost", reason⟩).1 id = none ∧
      ∀ e ∈ (processNodeDeletion g ⟨id, "lost", reason⟩).1.edges,
        e.src ≠ id ∧ e.tgt ≠ id) ∧
    (∃ nd, lookupNode (processNodeDeletion g ⟨id, "default", reason⟩).1 id = some nd ∧
      nd.isDeleted = true) := by
  obtain ⟨nd0, hnd0⟩ := Option.isSome_iff_exists.mp h
  refine ⟨?_, ⟨?_, ?_⟩, ?_⟩
  · refine ⟨{ nd0 with isDeleted := true, deletionReason := some reason }, ?_, rfl⟩
    simp [processNodeDeletion, mark_node_as_deleted, lookupNode, lookup_mark, hnd0]
    exact ⟨nd0, hnd0, rfl, rfl⟩
  · have hdel : delete_node g id =
        (true, { nodes := g.nodes.filter (fun p => !(p.1 == id)),
                 edges := g.edges.filter (fun e => !(e.src == id) && !(e.tgt == id)) }) := by
      simp [delete_node, lookupNode] at h ⊢
      exact h
    simp [processNodeDeletion, hdel, lookupNode, lookup_filter_self]
  · intro e he
    have hdel : delete_node g id =
        (true, { nodes := g.nodes.filter (fun p => !(p.1 == id)),
                 edges := g.edges.filter (fun e => !(e.src == id) && !(e.tgt == id)) }) := by
      simp [delete_node, lookupNode] at h ⊢
      exact h
    simp [processNodeDeletion, hdel] at he
    exact ⟨he.2.1, he.2.2⟩
  · refine ⟨{ nd0 with isDeleted := true, deletionReason := some reason }, ?_, rfl⟩
    simp [processNodeDeletion, mark_node_as_deleted, lookupNode, lookup_mark, hnd0]
    exact ⟨nd0, hnd0, rfl, rfl⟩

/-- Witness for claim C4 on a concrete two-node graph with one incident
edge. -/
theorem claimC4_witness :
    (lookupNode ⟨[("item_amulet", ⟨"item", [("name", "amulet")], false, none⟩),
        ("character_npc_a", ⟨"character", [("name", "npc a")], false, none⟩)],
      [⟨"character_npc_a", "item_amulet", "拥有"⟩]⟩ "item_amulet").isSome ∧
    (lookupNode (processNodeDeletion
        ⟨[("item_amulet", ⟨"item", [("name", "amulet")], false, none⟩),
          ("character_npc_a", ⟨"character", [("name", "npc a")], false, none⟩)],
        [⟨"character_npc_a", "item_amulet", "拥有"⟩]⟩
        ⟨"item_amulet", "lost", "丢失"⟩).1 "item_amulet" = none ∧
      ∀ e ∈ (processNodeDeletion
        ⟨[("item_amulet", ⟨"item", [("name", "amulet")], false, none⟩),
          ("character_npc_a", ⟨"character", [("name", "npc a")], false, none⟩)],
        [⟨"character_npc_a", "item_amulet", "拥有"⟩]⟩
        ⟨"item_amulet", "lost", "丢失"⟩).1.edges,
        e.src ≠ "item_amulet" ∧ e.tgt ≠ "item_amulet") :=
  ⟨by decide,
    (claimC4 ⟨[("item_amulet", ⟨"item", [("name", "amulet")], false, none⟩),
        ("character_npc_a", ⟨"character", [("name", "npc a")], false, none⟩)],
      [⟨"character_npc_a", "item_amulet", "拥有"⟩]⟩ "item_amulet" "丢失" (by decide)).2.1⟩

/-! ## Claim C6: wildcard edge deletion -/

/-- Every edge matches its own triple. -/
theorem tripleMatch_self (e : Edge) : tripleMatch e.src e.tgt e.rel e = true := by
  simp [tripleMatch]

/-- Wildcard matching composes fieldwise: a pattern field matched by a
concrete field that in turn matches a second edge also matches the second
edge. -/
theorem wildcardField {p f e : String} (h1 : p = "*" ∨ f = p) (h2 : f = "*" ∨ e = f) :
    p = "*" ∨ e = p := by
  rcases h1 with h1 | h1
  · exact Or.inl h1
  · rcases h2 with h2 | h2
    · exact Or.inl (h1 ▸ h2)
    · exact Or.inr (h2.trans h1)

/-- An edge removed while deleting the triple of a matching edge matches
the original pattern as well. -/
theorem tripleMatch_trans {s t r : String} {f e : Edge}
    (hf : tripleMatch s t r f = true) (he : tripleMatch f.src f.tgt f.rel e = true) :
    tripleMatch s t r e = true := by
  simp only [tripleMatch, Bool.and_eq_true, Bool.or_eq_true, beq_iff_eq] at hf he ⊢
  exact ⟨⟨wildcardField hf.1.1 he.1.1, wildcardField hf.1.2 he.1.2⟩,
    wildcardField hf.2 he.2⟩

/-- Folding the precise deletion step over a list of triples removes
exactly the edges matching one of the triples and touches nothing else. -/
theorem fold_delete_edges (L : List Edge) :
    ∀ (g : Graph) (n : Nat),
      (L.foldl deleteEdgeStep (g, n)).1 =
        ⟨g.nodes, g.edges.filter (fun e => L.all (fun f => !(tripleMatch f.src f.tgt f.rel e)))⟩ := by
  induction L with
  | nil =>
      intro g n
      simp [List.foldl]
  | cons f L ih =>
      intro g n
      rw [List.foldl_cons]
      have hstep : deleteEdgeStep (g, n) f =
          ({ g with edges := g.edges.filter (fun e => !(tripleMatch f.src f.tgt f.rel e)) },
           if ((g.edges.filter (fun e => !(tripleMatch f.src f.tgt f.rel e))).length
                != g.edges.length) then n + 1 else n) := rfl
      rw [hstep, ih]
      refine Graph.mk.injEq _ _ _ _ ▸ ?_
      refine ⟨rfl, ?_⟩
      rw [List.filter_filter]
      refine List.filter_congr ?_
      intro e _
      rw [List.all_cons]
      exact Bool.and_comm _ _

/-- Claim C6: one edges_to_delete entry removes exactly the edges agreeing
with the entry on every non-wildcard field, a star standing for a wildcard
in any of source, target and relationship; in particular an entry whose
target alone is a star removes every edge with the given source and
relationship. The node set is untouched. -/
theorem claimC6 (g : Graph) (d : EdgeDeletion) :
    (processEdgeDeletion g d).1.nodes = g.nodes ∧
    (processEdgeDeletion g d).1.edges =
      g.edges.filter (fun e => !(tripleMatch d.source d.target d.relationship e)) := by
  unfold processEdgeDeletion
  by_cases hw : (d.source == "*" || d.relationship == "*") = true
  · rw [if_pos hw, fold_delete_edges]
    refine ⟨rfl, ?_⟩
    refine List.filter_congr ?_
    intro e he
    by_cases hm : tripleMatch d.source d.target d.relationship e = true
    · rw [hm]
      cases hall : (g.edges.filter
          (tripleMatch d.source d.target d.relationship)).all
            (fun f => !(tripleMatch f.src f.tgt f.rel e)) with
      | false => rfl
      | true =>
          exfalso
          have hmem : e ∈ g.edges.filter (tripleMatch d.source d.target d.relationship) :=
            List.mem_filter.mpr ⟨he, hm⟩
          have := List.all_eq_true.mp hall e hmem
          rw [tripleMatch_self e] at this
          exact Bool.false_ne_true this
    · have hm2 : tripleMatch d.source d.target d.relationship e = false :=
        Bool.eq_false_iff.mpr hm
      rw [hm2]
      refine List.all_eq_true.mpr ?_
      intro f hf
      obtain ⟨_, hfd⟩ := List.mem_filter.mp hf
      by_cases hfe : tripleMatch f.src f.tgt f.rel e = true
      · exact absurd (tripleMatch_trans hfd hfe) hm
      · rw [Bool.eq_false_iff.mpr hfe]
        rfl
  · rw [if_neg hw]
    constructor <;> (dsimp only; split <;> rfl)

/-! ## Claim C8: id canonicality -/

/-- Canonicality only concerns the node list. -/
theorem graphCanonical_nodes_eq {g1 g2 : Graph} (h : g2.nodes = g1.nodes)
    (hc : graphCanonical g1) : graphCanonical g2 := by
  intro p hp
  exact hc p (h ▸ hp)

/-- add_edge never changes the node list. -/
theorem add_edge_nodes (g : Graph) (s t r : String) :
    (add_edge g s t r).nodes = g.nodes := by
  unfold add_edge
  split <;> rfl

/-- Upserting a node under its generated id with the name attribute first
preserves canonicality of the whole graph. -/
theorem add_or_update_canonical (g : Graph) (nm ntype : String)
    (rest : List (String × String)) (h : graphCanonical g) :
    graphCanonical (add_or_update_node g (generateEntityId nm ntype) ntype
      (("name", nm) :: rest)) := by
  intro p hp
  unfold add_or_update_node at hp
  cases hl : g.nodes.lookup (generateEntityId nm ntype) with
  | none =>
      rw [hl] at hp
      rcases List.mem_cons.mp hp with hp | hp
      · subst hp
        show generateEntityId nm ntype =
          generateEntityId (nodeName (generateEntityId nm ntype)
            ⟨ntype, ("name", nm) :: rest, false, none⟩) ntype
        simp [nodeName, List.lookup]
      · exact h p hp
  | some old =>
      rw [hl] at hp
      obtain ⟨q, hq, hfq⟩ := List.mem_map.mp hp
      by_cases hqid : q.1 = generateEntityId nm ntype
      · rw [if_pos hqid] at hfq
        subst hfq
        show q.1 = generateEntityId (nodeName q.1
          ⟨ntype, mergeAttrs old.attrs (("name", nm) :: rest), old.isDeleted,
            old.deletionReason⟩) ntype
        have hname : (mergeAttrs old.attrs (("name", nm) :: rest)).lookup "name" = some nm := by
          simp [mergeAttrs, List.lookup]
        simp [nodeName, hname, hqid]
      · rw [if_neg hqid] at hfq
        subst hfq
        exact h q hq

/-- The main character insertion of the bootstrap preserves canonicality. -/
theorem applyMainCharacter_canonical (g : Graph) (pd : ParsedData)
    (charName : String) (h : graphCanonical g) :
    graphCanonical (applyMainCharacter g pd charName) := by
  unfold applyMainCharacter
  cases pd.mainCharacter with
  | none => exact h
  | some mc => exact add_or_update_canonical g _ "character" _ h

/-- The entity insertions of the bootstrap preserve canonicality. -/
theorem applyEntities_canonical (es : List EntitySpec) :
    ∀ g, graphCanonical g → graphCanonical (applyEntities g es) := by
  induction es with
  | nil => exact fun g h => h
  | cons e es ih =>
      intro g h
      have hstep : applyEntities g (e :: es) =
          applyEntities (if e.name = "" then g
            else add_or_update_node g (generateEntityId e.name e.etype) e.etype
              [("name", e.name), ("description", e.description),
               ("source", "llm_analysis")]) es := rfl
      rw [hstep]
      by_cases hn : e.name = ""
      · rw [if_pos hn]
        exact ih g h
      · rw [if_neg hn]
        exact ih _ (add_or_update_canonical g e.name e.etype _ h)

/-- The relationship loop of the bootstrap never touches the node list. -/
theorem applyRelationships_nodes (pd : ParsedData) (charName : String) :
    ∀ g, (applyRelationships g pd charName).nodes = g.nodes := by
  unfold applyRelationships
  generalize pd.relationships = rels
  induction rels with
  | nil => exact fun g => rfl
  | cons r rels ih =>
      intro g
      rw [List.foldl_cons, ih]
      split
      · rfl
      · split
        · split
          · exact add_edge_nodes _ _ _ _
          · rfl
        · rfl

/-- Counterexample to claim C8: two of the three insertion operations of
the claim break the invariant. The session reinitialization endpoint
inserts a character node keyed by the raw character name instead of the
canonical type-prefixed id, and the per-turn node update loop inserts a
missing node under the raw delta node id with an independently derived
type: a type-less entry with id character_bob and no location attribute
yields a node typed unknown, so starting from a canonical (empty) graph
both paths produce a non-canonical one. -/
theorem claimC8_counterexample :
    graphCanonical (⟨[], []⟩ : Graph) ∧
    ¬ graphCanonical (reinitSessionGraph ⟨[], []⟩ "Seraphina").1 ∧
    ¬ graphCanonical (applyNodeUpdates ⟨[], []⟩
        [⟨"character_bob", none, [("mood", "happy")]⟩]) := by
  refine ⟨?_, ?_, ?_⟩
  · intro p hp
    simp at hp
  · intro hcan
    have hx := hcan ("Seraphina",
        ⟨"character", [("description", "SillyTavern中的角色 Seraphina"),
          ("role", "主角"), ("source", "SillyTavern")], false, none⟩) (by decide)
    have hne : ("Seraphina" : String) ≠
        generateEntityId (nodeName "Seraphina"
          ⟨"character", [("description", "SillyTavern中的角色 Seraphina"),
            ("role", "主角"), ("source", "SillyTavern")], false, none⟩) "character" := by
      decide
    exact hne hx
  · intro hcan
    have hx := hcan ("character_bob",
        ⟨"unknown", [("mood", "happy")], false, none⟩) (by decide)
    have hne : ("character_bob" : String) ≠
        generateEntityId (nodeName "character_bob"
          ⟨"unknown", [("mood", "happy")], false, none⟩) "unknown" := by
      decide
    exact hne hx

/-- Claim C8 as amended: node ids produced by the bootstrap are canonical,
the id being the type, an underscore and the stripped, lowercased,
space-to-underscore normalized name, and both bootstrap paths, the LLM
analysis application and the simple fallback, preserve canonicality of a
canonical graph; but the other two insertion operations do not preserve
the invariant: the session reinitialization endpoint keys nodes with raw
display names, and the per-turn node update loop inserts a missing node
under the raw node id of the delta entry, typed by the entry type field
alone (defaulting to unknown, with a location attribute promoting unknown
to character) and carrying only the entry attributes, independent of what
the id encodes. -/
theorem claimC8 (g : Graph) (pd : ParsedData) (charName charDescription : String)
    (h : graphCanonical g) :
    graphCanonical (fallbackSimpleInit g charName charDescription) ∧
    graphCanonical (applyLLMAnalysisResults g pd charName) ∧
    (∀ u : NodeUpdate, lookupNode g u.nodeId = none →
      lookupNode (applyNodeUpdate g u) u.nodeId =
        some ⟨inferNodeType u, u.attributes, false, none⟩) := by
  refine ⟨?_, ?_, ?_⟩
  · exact add_or_update_canonical g charName "character" _ h
  · have h1 := applyMainCharacter_canonical g pd charName h
    have h2 := applyEntities_canonical pd.entities _ h1
    exact graphCanonical_nodes_eq (applyRelationships_nodes pd charName _) h2
  · intro u hu
    have hu2 : g.nodes.lookup u.nodeId = none := hu
    unfold applyNodeUpdate
    rw [show lookupNode g u.nodeId = none from hu]
    unfold add_or_update_node
    rw [hu2]
    simp [lookupNode, List.lookup]

/-- Witness for claim C8 on the empty graph, a concrete payload and a
concrete delta entry. -/
theorem claimC8_witness :
    graphCanonical (⟨[], []⟩ : Graph) ∧
    lookupNode (⟨[], []⟩ : Graph) "location_cave" = none ∧
    (graphCanonical (fallbackSimpleInit ⟨[], []⟩ "Seraphina" "a kind guardian") ∧
      graphCanonical (applyLLMAnalysisResults ⟨[], []⟩
        ⟨some ⟨"Seraphina", "character", ""⟩,
         [⟨"Magic Forest", "location", "an enchanted forest"⟩],
         [⟨"Seraphina", "Magic Forest", "位于"⟩]⟩ "Seraphina") ∧
      lookupNode (applyNodeUpdate ⟨[], []⟩
          ⟨"location_cave", some "location", [("name", "cave")]⟩) "location_cave" =
        some ⟨inferNodeType ⟨"location_cave", some "location", [("name", "cave")]⟩,
          [("name", "cave")], false, none⟩) :=
  ⟨fun p hp => absurd hp (by simp), by decide,
    let h := claimC8 ⟨[], []⟩
      ⟨some ⟨"Seraphina", "character", ""⟩,
       [⟨"Magic Forest", "location", "an enchanted forest"⟩],
       [⟨"Seraphina", "Magic Forest", "位于"⟩]⟩ "Seraphina" "a kind guardian"
      (fun p hp => absurd hp (by simp))
    ⟨h.1, h.2.1,
      h.2.2 ⟨"location_cave", some "location", [("name", "cave")]⟩ (by decide)⟩⟩

end EchoGraph
